import Mathlib

/-!
Verification of the kluster-capacity simulation orchestration layer
(`pkg/framework/generic.go`, the GenericBinder plugin, and the world
snapshot loader) against its design specification.

The Go code is shallowly embedded: the relevant Kubernetes objects are
modelled as plain structures, the fake clientset tracker as a list keyed
by object identity, channels as close counters, and the external cluster
(the dynamic client) as an environment function.  All definitions are
executable so properties can be checked on concrete inputs.
-/

/-- An owner reference of a pod; only the Kind field is inspected by the
sanitizer (`pod.OwnerReferences[0].Kind == "DaemonSet"`). -/
structure OwnerReference where
  kind : String
deriving DecidableEq, Repr

/-- Pod phases used by the simulator (`corev1.PodPhase`). -/
inductive PodPhase
  | pending
  | running
  | succeeded
  | failed
deriving DecidableEq, Repr

/-- The fields of `corev1.Pod` read or written by the embedded code:
identity, node assignment, phase, deletion marker and owner references.
`deletionTimestamp = none` models a nil `DeletionTimestamp`. -/
structure Pod where
  ns : String
  name : String
  nodeName : String
  phase : PodPhase
  deletionTimestamp : Option String
  ownerReferences : List OwnerReference
deriving DecidableEq, Repr

/-- The fields of `corev1.Node` read or written by the embedded code. -/
structure Node where
  name : String
  images : List String
deriving DecidableEq, Repr

/-- A `runtime.Object` as the simulator sees it: a typed Pod or Node, any
other concretely typed object (identified by kind, namespace, name), or a
generically typed (unstructured) object. -/
inductive RuntimeObject
  | pod (p : Pod)
  | node (n : Node)
  | typed (kind nspace name : String)
  | unstr (kind nspace name : String)
deriving DecidableEq, Repr

/-- `obj.(runtime.Unstructured)` type assertion of `InitTheWorld`. -/
def isUnstructured : RuntimeObject → Bool
  | RuntimeObject.unstr _ _ _ => true
  | _ => false

/-- The configuration flags of `genericSimulator` consulted by `preAdd`.
`excludeNodes = none` models a nil `sets.String` (option never applied);
`some l` models a configured exclusion set. -/
structure SimConfig where
  excludeNodes : Option (List String)
  withScheduledPods : Bool
  withNodeImages : Bool
  ignorePodsOnExcludesNode : Bool
deriving DecidableEq, Repr

/-- `pod.OwnerReferences != nil && pod.OwnerReferences[0].Kind == "DaemonSet"`:
a nil (empty) owner list fails the nil check; otherwise the first
reference's kind is compared. -/
def isDaemonSetOwned (pod : Pod) : Bool :=
  match pod.ownerReferences with
  | [] => false
  | r :: _ => r.kind == "DaemonSet"

/-- Modelled from the spec: `utils.InitPod` (package `pkg/utils`, not part
of the analysed sources) is described as clearing any prior node
assignment so the pod can be re-scheduled; the pending phase is set by the
caller in `preAdd`. -/
def initPod (p : Pod) : Pod :=
  { p with nodeName := "" }

/-- `genericSimulator.preAdd`: the sanitization policy applied to every
object before it enters the isolated store.  The Go function returns
`(bool, runtime.Object)` where the object is nil exactly when the bool is
false, so the pair is embedded as an `Option`: `none` means exclude,
`some o` means include `o`. -/
def preAdd (s : SimConfig) (obj : RuntimeObject) : Option RuntimeObject :=
  match obj with
  | RuntimeObject.pod pod =>
    if (match s.excludeNodes with
        | some ex =>
          ex.contains pod.nodeName &&
            (s.ignorePodsOnExcludesNode || isDaemonSetOwned pod)
        | none => false)
    then none
    else if pod.phase == PodPhase.succeeded || pod.phase == PodPhase.failed
            || pod.deletionTimestamp.isSome
    then none
    else if !s.withScheduledPods
    then some (RuntimeObject.pod { initPod pod with phase := PodPhase.pending })
    else some obj
  | RuntimeObject.node node =>
    match s.excludeNodes with
    | some ex =>
      if ex.contains node.name then none
      else if !s.withNodeImages
      then some (RuntimeObject.node { node with images := [] })
      else some obj
    | none => some obj
  | _ => some obj

/-- C1 counterexample: a pod on excluded node "n1" whose first owner
reference has kind DaemonSet is excluded (include=false) by `preAdd` even
with "ignore pods on excluded nodes" = false, contradicting the claim that
it is retained in that case. -/
theorem preAdd_daemonset_ignore_off_excluded :
    preAdd
      { excludeNodes := some ["n1"], withScheduledPods := true,
        withNodeImages := true, ignorePodsOnExcludesNode := false }
      (RuntimeObject.pod
        { ns := "default", name := "ds-pod", nodeName := "n1",
          phase := PodPhase.running, deletionTimestamp := none,
          ownerReferences := [{ kind := "DaemonSet" }] }) = none := by
  decide

/-- C1 (amended): a pod whose assigned node is in the configured exclusion
set and whose first owner reference has kind DaemonSet is always excluded
by `preAdd` (include=false), whatever the value of "ignore pods on
excluded nodes". -/
theorem preAdd_daemonset_on_excluded_node (s : SimConfig) (ex : List String)
    (pod : Pod) (hex : s.excludeNodes = some ex)
    (hmem : ex.contains pod.nodeName = true)
    (hds : isDaemonSetOwned pod = true) :
    preAdd s (RuntimeObject.pod pod) = none := by
  have hmem' : pod.nodeName ∈ ex := by simpa using hmem
  simp [preAdd, hex, hmem', hds]

/-- C1 witness: the amended theorem applied to a concrete DaemonSet pod on
a concrete excluded node with the ignore flag off. -/
theorem preAdd_daemonset_on_excluded_node_witness :
    preAdd
      { excludeNodes := some ["n2"], withScheduledPods := true,
        withNodeImages := true, ignorePodsOnExcludesNode := false }
      (RuntimeObject.pod
        { ns := "kube-system", name := "ds2", nodeName := "n2",
          phase := PodPhase.pending, deletionTimestamp := none,
          ownerReferences := [{ kind := "DaemonSet" }] }) = none :=
  preAdd_daemonset_on_excluded_node _ ["n2"] _ rfl (by decide) (by decide)

/-- C4 counterexample: with no exclusion set configured and "with node
images" disabled, `preAdd` returns the node unchanged, so its image
inventory is NOT cleared — contradicting the claim that images are cleared
regardless of whether an exclusion set was configured. -/
theorem preAdd_node_images_kept_without_exclusion_set :
    preAdd
      { excludeNodes := none, withScheduledPods := true,
        withNodeImages := false, ignorePodsOnExcludesNode := false }
      (RuntimeObject.node { name := "n1", images := ["img1"] })
      = some (RuntimeObject.node { name := "n1", images := ["img1"] }) := by
  decide

/-- C4 (amended): when an exclusion set IS configured, a node not in it is
included by `preAdd` with its image inventory cleared whenever "with node
images" is disabled. -/
theorem preAdd_node_clears_images (s : SimConfig) (ex : List String)
    (node : Node) (hex : s.excludeNodes = some ex)
    (hmem : ex.contains node.name = false)
    (himg : s.withNodeImages = false) :
    preAdd s (RuntimeObject.node node)
      = some (RuntimeObject.node { node with images := [] }) := by
  have hmem' : node.name ∉ ex := by simpa using hmem
  simp [preAdd, hex, hmem', himg]

/-- C4 witness: the amended theorem applied to a concrete node outside a
concrete exclusion set with node images disabled. -/
theorem preAdd_node_clears_images_witness :
    preAdd
      { excludeNodes := some ["other"], withScheduledPods := true,
        withNodeImages := false, ignorePodsOnExcludesNode := false }
      (RuntimeObject.node { name := "n1", images := ["img1", "img2"] })
      = some (RuntimeObject.node { name := "n1", images := [] }) :=
  preAdd_node_clears_images _ ["other"] _ rfl (by decide) rfl

/-- C6: a pod whose phase is Succeeded or Failed, or whose deletion
timestamp is set, is always excluded by `preAdd`, for every configuration
(exclusion set, ignore flag, with-scheduled-pods flag). -/
theorem preAdd_terminal_pod_excluded (s : SimConfig) (pod : Pod)
    (h : pod.phase = PodPhase.succeeded ∨ pod.phase = PodPhase.failed
         ∨ pod.deletionTimestamp.isSome = true) :
    preAdd s (RuntimeObject.pod pod) = none := by
  unfold preAdd
  rcases h with h | h | h <;> simp [h]

/-- C6 witness: a concrete failed pod on an unexcluded node is excluded. -/
theorem preAdd_terminal_pod_excluded_witness :
    preAdd
      { excludeNodes := none, withScheduledPods := false,
        withNodeImages := true, ignorePodsOnExcludesNode := true }
      (RuntimeObject.pod
        { ns := "default", name := "done", nodeName := "n3",
          phase := PodPhase.failed, deletionTimestamp := none,
          ownerReferences := [] }) = none :=
  preAdd_terminal_pod_excluded _ _ (Or.inr (Or.inl rfl))

/-- The pod view of the isolated store (the fake clientset's tracker
restricted to Pods): `CoreV1().Pods(ns).Get` finds the first pod with the
given namespace and name. -/
def podGet (store : List Pod) (nspace name : String) : Option Pod :=
  store.find? fun p => p.ns == nspace && p.name == name

/-- `CoreV1().Pods(ns).Update`: replaces the stored pod with the same
identity as `q`; fails (`none`) when no such pod exists. -/
def podUpdate (store : List Pod) (q : Pod) : Option (List Pod) :=
  match store with
  | [] => none
  | p :: rest =>
    if p.ns == q.ns && p.name == q.name then some (q :: rest)
    else (podUpdate rest q).map (p :: ·)

/-- `GenericBinder.Bind`: re-reads the pod from the isolated store by
namespace and name, errors if the read fails; otherwise writes back a copy
with the node assignment set and phase Running, erroring if the update
fails.  The Go method returns a `*framework.Status` that is nil on
success, embedded as `Option String`; the store mutation is made explicit
in the second component. -/
def GenericBinder.Bind (store : List Pod) (p : Pod) (nodeName : String) :
    Option String × List Pod :=
  match podGet store p.ns p.name with
  | none => (some "Unable to bind: pod not found", store)
  | some pod =>
    let updatedPod := { pod with nodeName := nodeName, phase := PodPhase.running }
    match podUpdate store updatedPod with
    | none => (some "Unable to update binded pod: pod not found", store)
    | some store' => (none, store')

/-- `GenericBinder.PostBind`: when a post-bind hook was supplied at
construction it is invoked with the bound pod; a hook error is wrapped in
a `framework.Status` that the Go code then discards, so nothing is ever
propagated.  The result records whether the hook was invoked and what
status (if any) escapes PostBind — always `none`, as in the source, where
`PostBind` has no return value at all. -/
def GenericBinder.PostBind (postBindHook : Option (Pod → Option String))
    (pod : Pod) : Bool × Option String :=
  match postBindHook with
  | none => (false, none)
  | some hook =>
    match hook pod with
    | some msg =>
      let _discarded := "Invoking postBindHook gives an error: " ++ msg
      (true, none)
    | none => (true, none)

/-- After a successful `podUpdate` with `q`, looking up `q`'s identity
yields `q`. -/
theorem podGet_podUpdate (store : List Pod) (q : Pod) (store' : List Pod)
    (h : podUpdate store q = some store') :
    podGet store' q.ns q.name = some q := by
  induction store generalizing store' with
  | nil => simp [podUpdate] at h
  | cons p rest ih =>
    by_cases hpq : (p.ns == q.ns && p.name == q.name) = true
    · simp [podUpdate, hpq] at h
      subst h
      simp [podGet, List.find?]
    · simp [podUpdate, hpq] at h
      obtain ⟨rest', hrest, hcons⟩ := h
      subst hcons
      have := ih rest' hrest
      simpa [podGet, List.find?, hpq] using this

/-- When a pod with `q`'s identity is present, `podUpdate` succeeds. -/
theorem podUpdate_isSome_of_get (store : List Pod) (nspace name : String)
    (pod : Pod) (hget : podGet store nspace name = some pod)
    (q : Pod) (hq : q.ns = pod.ns) (hn : q.name = pod.name) :
    (podUpdate store q).isSome := by
  induction store with
  | nil => simp [podGet] at hget
  | cons p rest ih =>
    by_cases hp : (p.ns == nspace && p.name == name) = true
    · have hmatch : (p.ns == q.ns && p.name == q.name) = true := by
        simp only [Bool.and_eq_true, beq_iff_eq] at hp ⊢
        have h2 : pod.ns = nspace ∧ pod.name = name := by
          have : p = pod := by
            have := hget
            simp [podGet, List.find?, hp] at this
            exact this
          constructor
          · rw [← this, hp.1]
          · rw [← this, hp.2]
        exact ⟨by rw [hq, h2.1, hp.1], by rw [hn, h2.2, hp.2]⟩
      simp [podUpdate, hmatch]
    · have hget' : podGet rest nspace name = some pod := by
        simpa [podGet, List.find?, hp] using hget
      have := ih hget'
      by_cases hm : (p.ns == q.ns && p.name == q.name) = true
      · simp [podUpdate, hm]
      · simpa [podUpdate, hm] using this

/-- C5: `Bind` errors exactly on a failed re-read, and after a successful
bind of pod `p` to node `n`, reading `p` back from the store yields the
original pod with nodeName = `n` and phase = Running. -/
theorem Bind_spec (store : List Pod) (p : Pod) (n : String) :
    (podGet store p.ns p.name = none →
      GenericBinder.Bind store p n
        = (some "Unable to bind: pod not found", store)) ∧
    (∀ pod0, podGet store p.ns p.name = some pod0 →
      (GenericBinder.Bind store p n).1 = none ∧
      podGet (GenericBinder.Bind store p n).2 p.ns p.name
        = some { pod0 with nodeName := n, phase := PodPhase.running }) := by
  constructor
  · intro hnone
    simp [GenericBinder.Bind, hnone]
  · intro pod0 hget
    have hid : pod0.ns = p.ns ∧ pod0.name = p.name := by
      have := List.find?_some hget
      simpa [Bool.and_eq_true, beq_iff_eq] using this
    have hup := podUpdate_isSome_of_get store p.ns p.name pod0 hget
      { pod0 with nodeName := n, phase := PodPhase.running } rfl rfl
    obtain ⟨store', hstore'⟩ := Option.isSome_iff_exists.mp hup
    have hget' := podGet_podUpdate store _ store' hstore'
    constructor
    · simp [GenericBinder.Bind, hget, hstore']
    · simp only [GenericBinder.Bind, hget, hstore']
      rw [← hid.1, ← hid.2]
      exact hget'

/-- C5 witness: binding a concrete unassigned pod to node "n1" in a
one-pod store succeeds and the read-back shows nodeName = "n1" and phase
Running; re-reading a pod absent from the empty store fails with the bind
error. -/
theorem Bind_spec_witness :
    ((GenericBinder.Bind
        [{ ns := "default", name := "p1", nodeName := "",
           phase := PodPhase.pending, deletionTimestamp := none,
           ownerReferences := [] }]
        { ns := "default", name := "p1", nodeName := "",
          phase := PodPhase.pending, deletionTimestamp := none,
          ownerReferences := [] } "n1").1 = none ∧
      podGet (GenericBinder.Bind
        [{ ns := "default", name := "p1", nodeName := "",
           phase := PodPhase.pending, deletionTimestamp := none,
           ownerReferences := [] }]
        { ns := "default", name := "p1", nodeName := "",
          phase := PodPhase.pending, deletionTimestamp := none,
          ownerReferences := [] } "n1").2 "default" "p1"
        = some { ns := "default", name := "p1", nodeName := "n1",
                 phase := PodPhase.running, deletionTimestamp := none,
                 ownerReferences := [] }) ∧
    GenericBinder.Bind []
      { ns := "default", name := "p1", nodeName := "",
        phase := PodPhase.pending, deletionTimestamp := none,
        ownerReferences := [] } "n1"
      = (some "Unable to bind: pod not found", []) :=
  ⟨(Bind_spec
      [{ ns := "default", name := "p1", nodeName := "",
         phase := PodPhase.pending, deletionTimestamp := none,
         ownerReferences := [] }]
      { ns := "default", name := "p1", nodeName := "",
        phase := PodPhase.pending, deletionTimestamp := none,
        ownerReferences := [] } "n1").2
      { ns := "default", name := "p1", nodeName := "",
        phase := PodPhase.pending, deletionTimestamp := none,
        ownerReferences := [] } (by decide),
   (Bind_spec []
      { ns := "default", name := "p1", nodeName := "",
        phase := PodPhase.pending, deletionTimestamp := none,
        ownerReferences := [] } "n1").1 (by decide)⟩

/-- C7: `PostBind` invokes the post-bind hook exactly when one was
supplied, and never propagates any status — the wrapped hook error is
discarded, so PostBind returns normally whatever the hook does. -/
theorem PostBind_spec (hook : Option (Pod → Option String)) (pod : Pod) :
    (GenericBinder.PostBind hook pod).1 = hook.isSome ∧
    (GenericBinder.PostBind hook pod).2 = none := by
  cases hook with
  | none => simp [GenericBinder.PostBind]
  | some h =>
    cases hh : h pod with
    | none => simp [GenericBinder.PostBind, hh]
    | some msg => simp [GenericBinder.PostBind, hh]

/-- The `pkg.Status` fields written by `Stop`: stop reason, node
inventory and accumulated pods. -/
structure KStatus where
  stopReason : String
  nodes : List (String × Node)
  pods : List Pod
deriving DecidableEq, Repr

/-- The parts of `genericSimulator` touched by `Stop`: the persistence
path `saveTo`, the mutex-guarded `stopped` flag, and the three lifecycle
channels, each modelled by a close counter so that a double close is
observable as a counter above one. -/
structure SimulatorState where
  saveTo : String
  stopped : Bool
  stopChCloses : Nat
  informerChCloses : Nat
  schedulerChCloses : Nat
  status : KStatus
deriving DecidableEq, Repr

/-- The outcome of the persistence attempt in `Stop`: opening the file can
fail (the Go code panics), `json.Marshal` can fail, `file.Write` can fail,
or the save succeeds. -/
inductive SaveOutcome
  | openFailed
  | marshalFailed
  | writeFailed
  | saved
deriving DecidableEq, Repr

/-- The environment of one `Stop` call: the node list returned by the fake
client and the fate of the persistence attempt (consulted only when a
persistence path is configured). -/
structure StopEnv where
  nodeList : List Node
  saveOutcome : SaveOutcome
deriving DecidableEq, Repr

/-- What `Stop` does from the caller's point of view: return nil (`ok`),
return an error from the save attempt (`failed`), or panic on file open. -/
inductive StopResult
  | panicked
  | failed (which : SaveOutcome)
  | ok
deriving DecidableEq, Repr

/-- The deferred `close(s.stopCh); close(s.informerCh); close(s.schedulerCh)`
of `Stop`: each channel's close counter is bumped once. -/
def closeAll (s : SimulatorState) : SimulatorState :=
  { s with stopChCloses := s.stopChCloses + 1,
           informerChCloses := s.informerChCloses + 1,
           schedulerChCloses := s.schedulerChCloses + 1 }

/-- `genericSimulator.Stop`: builds the node map, returns nil at once if
already stopped; otherwise, when a persistence path is configured, opens
the file (panicking on failure) and returns the marshal or write error if
serialization fails — note that these returns happen BEFORE the deferred
channel closes are registered, so on a failed save no lifecycle channel is
closed and `stopped` stays false.  On the remaining paths the stop reason
and node map are recorded, `stopped` is set, and the three channels are
each closed once by the deferred function. -/
def Stop (env : StopEnv) (s : SimulatorState) (reason : String) :
    StopResult × SimulatorState :=
  let nodeMap := env.nodeList.map fun n => (n.name, n)
  if s.stopped then (StopResult.ok, s)
  else
    let finish : SimulatorState :=
      closeAll { s with
        status := { s.status with stopReason := reason, nodes := nodeMap },
        stopped := true }
    if 0 < s.saveTo.length then
      match env.saveOutcome with
      | SaveOutcome.openFailed => (StopResult.panicked, s)
      | SaveOutcome.marshalFailed => (StopResult.failed SaveOutcome.marshalFailed, s)
      | SaveOutcome.writeFailed => (StopResult.failed SaveOutcome.writeFailed, s)
      | SaveOutcome.saved => (StopResult.ok, finish)
    else (StopResult.ok, finish)

/-- C2 counterexample: with a persistence path configured and the write
failing, `Stop` returns the error but the three lifecycle channels are NOT
closed (all close counters stay 0) and `stopped` stays false —
contradicting the claim that the signals are still released. -/
theorem Stop_saveFailure_blocks_shutdown :
    Stop { nodeList := [], saveOutcome := SaveOutcome.writeFailed }
      { saveTo := "out.json", stopped := false, stopChCloses := 0,
        informerChCloses := 0, schedulerChCloses := 0,
        status := { stopReason := "", nodes := [], pods := [] } } "reason"
    = (StopResult.failed SaveOutcome.writeFailed,
       { saveTo := "out.json", stopped := false, stopChCloses := 0,
         informerChCloses := 0, schedulerChCloses := 0,
         status := { stopReason := "", nodes := [], pods := [] } }) := by
  decide

/-- C2 (amended): when a persistence path is configured and marshalling or
writing the Status fails, `Stop` returns that error and leaves the
simulator state completely unchanged: no lifecycle channel is closed and
the stopped flag is not set, so a failed save DOES block the shutdown
signal-closing (a later Stop call would retry). -/
theorem Stop_saveFailure (env : StopEnv) (s : SimulatorState) (reason : String)
    (hns : s.stopped = false) (hsv : 0 < s.saveTo.length)
    (hf : env.saveOutcome = SaveOutcome.marshalFailed
          ∨ env.saveOutcome = SaveOutcome.writeFailed) :
    Stop env s reason = (StopResult.failed env.saveOutcome, s) := by
  rcases hf with hf | hf <;> simp [Stop, hns, hsv, hf]

/-- C2 witness: the amended theorem applied to a concrete simulator with a
configured persistence path and a failing marshal. -/
theorem Stop_saveFailure_witness :
    Stop { nodeList := [{ name := "n1", images := [] }],
           saveOutcome := SaveOutcome.marshalFailed }
      { saveTo := "st.json", stopped := false, stopChCloses := 0,
        informerChCloses := 0, schedulerChCloses := 0,
        status := { stopReason := "", nodes := [], pods := [] } } "done"
    = (StopResult.failed SaveOutcome.marshalFailed,
       { saveTo := "st.json", stopped := false, stopChCloses := 0,
         informerChCloses := 0, schedulerChCloses := 0,
         status := { stopReason := "", nodes := [], pods := [] } }) :=
  Stop_saveFailure _ _ "done" rfl (by decide) (Or.inl rfl)

/-- C3 counterexample: with a persistence path configured and the write
failing, the first of two Stop calls returns an error (not nil) and closes
no channel, so the two calls do NOT close each channel exactly once nor
both return success, contradicting the claim as stated. -/
theorem Stop_twice_saveFailure_not_ok :
    (Stop { nodeList := [], saveOutcome := SaveOutcome.writeFailed }
      { saveTo := "x", stopped := false, stopChCloses := 0,
        informerChCloses := 0, schedulerChCloses := 0,
        status := { stopReason := "", nodes := [], pods := [] } } "r").1
      ≠ StopResult.ok ∧
    ((Stop { nodeList := [], saveOutcome := SaveOutcome.writeFailed }
      { saveTo := "x", stopped := false, stopChCloses := 0,
        informerChCloses := 0, schedulerChCloses := 0,
        status := { stopReason := "", nodes := [], pods := [] } } "r").2).stopChCloses
      = 0 := by
  decide

/-- C3 (amended): from a fresh simulator (not stopped, no channel closed),
when no persistence path is configured or the first save succeeds, two
sequential `Stop` calls both return nil; the first closes each of the
three lifecycle channels exactly once and the second is a no-op (it leaves
the state of the first call untouched), so each channel is closed exactly
once in total.  The `stopMux`/`stopped` guard serializes concurrent calls,
so this sequential composition also covers the concurrent case. -/
theorem Stop_idempotent (env1 env2 : StopEnv) (s : SimulatorState)
    (r1 r2 : String)
    (hns : s.stopped = false) (hc1 : s.stopChCloses = 0)
    (hc2 : s.informerChCloses = 0) (hc3 : s.schedulerChCloses = 0)
    (hsave : s.saveTo.length = 0 ∨ env1.saveOutcome = SaveOutcome.saved) :
    (Stop env1 s r1).1 = StopResult.ok ∧
    (Stop env1 s r1).2.stopChCloses = 1 ∧
    (Stop env1 s r1).2.informerChCloses = 1 ∧
    (Stop env1 s r1).2.schedulerChCloses = 1 ∧
    Stop env2 (Stop env1 s r1).2 r2 = (StopResult.ok, (Stop env1 s r1).2) := by
  have hstop1 : Stop env1 s r1
      = (StopResult.ok,
         closeAll { s with
           status := { s.status with
                       stopReason := r1,
                       nodes := env1.nodeList.map (fun n => (n.name, n)) },
           stopped := true }) := by
    rcases hsave with hsv | hsv
    · have : ¬ 0 < s.saveTo.length := by omega
      simp [Stop, hns, this]
    · by_cases hlen : 0 < s.saveTo.length
      · simp [Stop, hns, hlen, hsv]
      · simp [Stop, hns, hlen]
  rw [hstop1]
  refine ⟨rfl, ?_, ?_, ?_, ?_⟩
  · simp [closeAll, hc1]
  · simp [closeAll, hc2]
  · simp [closeAll, hc3]
  · simp [Stop, closeAll]

/-- C3 witness: the amended theorem applied to a concrete fresh simulator
with no persistence path; two Stop calls return nil and leave every close
counter at one. -/
theorem Stop_idempotent_witness :
    (Stop { nodeList := [], saveOutcome := SaveOutcome.saved }
      { saveTo := "", stopped := false, stopChCloses := 0,
        informerChCloses := 0, schedulerChCloses := 0,
        status := { stopReason := "", nodes := [], pods := [] } } "first").1
      = StopResult.ok ∧
    (Stop { nodeList := [], saveOutcome := SaveOutcome.saved }
      { saveTo := "", stopped := false, stopChCloses := 0,
        informerChCloses := 0, schedulerChCloses := 0,
        status := { stopReason := "", nodes := [], pods := [] } } "first").2.stopChCloses
      = 1 ∧
    (Stop { nodeList := [], saveOutcome := SaveOutcome.saved }
      { saveTo := "", stopped := false, stopChCloses := 0,
        informerChCloses := 0, schedulerChCloses := 0,
        status := { stopReason := "", nodes := [], pods := [] } } "first").2.informerChCloses
      = 1 ∧
    (Stop { nodeList := [], saveOutcome := SaveOutcome.saved }
      { saveTo := "", stopped := false, stopChCloses := 0,
        informerChCloses := 0, schedulerChCloses := 0,
        status := { stopReason := "", nodes := [], pods := [] } } "first").2.schedulerChCloses
      = 1 ∧
    Stop { nodeList := [], saveOutcome := SaveOutcome.saved }
      (Stop { nodeList := [], saveOutcome := SaveOutcome.saved }
        { saveTo := "", stopped := false, stopChCloses := 0,
          informerChCloses := 0, schedulerChCloses := 0,
          status := { stopReason := "", nodes := [], pods := [] } } "first").2 "second"
      = (StopResult.ok,
         (Stop { nodeList := [], saveOutcome := SaveOutcome.saved }
          { saveTo := "", stopped := false, stopChCloses := 0,
            informerChCloses := 0, schedulerChCloses := 0,
            status := { stopReason := "", nodes := [], pods := [] } } "first").2) :=
  Stop_idempotent _ _ _ "first" "second" rfl rfl rfl rfl (Or.inl rfl)

/-- The package-scope state behind `getInitObjects`: the `sync.Once` latch,
the cached `initObjects` slice, and a counter of how many times the real
cluster has actually been listed. -/
structure LoaderState where
  onceDone : Bool
  initObjects : List RuntimeObject
  fetchCount : Nat
deriving DecidableEq, Repr

/-- The initial package state: the once latch untriggered, no cached
objects, no fetch performed. -/
def initialLoaderState : LoaderState :=
  { onceDone := false, initObjects := [], fetchCount := 0 }

/-- `getInitObjects`: under the `once.Do` latch, list every registered
resource kind from the real cluster and append the results to the
package-level cache; afterwards return the cache.  The real-cluster round
trip is the environment `cluster`, indexed by how many fetches have
happened so far, so that a repeated fetch would be observable. -/
def getInitObjects (cluster : Nat → List RuntimeObject) (st : LoaderState) :
    List RuntimeObject × LoaderState :=
  if st.onceDone then (st.initObjects, st)
  else
    let objs := cluster st.fetchCount
    (objs, { onceDone := true, initObjects := objs,
             fetchCount := st.fetchCount + 1 })

/-- A sequence of `n` successive `getInitObjects` calls, returning the
list of per-call results and the final package state. -/
def runLoaderCalls (cluster : Nat → List RuntimeObject) (st : LoaderState) :
    Nat → List (List RuntimeObject) × LoaderState
  | 0 => ([], st)
  | n + 1 =>
    let step := getInitObjects cluster st
    let rest := runLoaderCalls cluster step.2 n
    (step.1 :: rest.1, rest.2)

/-- Once the latch has fired, every further call returns the cache and
leaves the state untouched. -/
theorem runLoaderCalls_done (cluster : Nat → List RuntimeObject)
    (st : LoaderState) (hdone : st.onceDone = true) (n : Nat) :
    runLoaderCalls cluster st n
      = (List.replicate n st.initObjects, st) := by
  induction n with
  | zero => simp [runLoaderCalls]
  | succ n ih =>
    simp [runLoaderCalls, getInitObjects, hdone, ih, List.replicate]

/-- C8: starting from the fresh package state, any positive number of
`getInitObjects` calls performs exactly one real-cluster fetch, and every
call returns the object set obtained by that single first fetch. -/
theorem getInitObjects_single_fetch (cluster : Nat → List RuntimeObject)
    (n : Nat) :
    (runLoaderCalls cluster initialLoaderState (n + 1)).2.fetchCount = 1 ∧
    (∀ r, r ∈ (runLoaderCalls cluster initialLoaderState (n + 1)).1
      → r = cluster 0) := by
  have hfirst : getInitObjects cluster initialLoaderState
      = (cluster 0,
         { onceDone := true, initObjects := cluster 0, fetchCount := 1 }) := by
    simp [getInitObjects, initialLoaderState]
  have hrest := runLoaderCalls_done cluster
    { onceDone := true, initObjects := cluster 0, fetchCount := 1 } rfl n
  constructor
  · simp [runLoaderCalls, hfirst, hrest]
  · intro r hr
    simp only [runLoaderCalls, hfirst, hrest] at hr
    simp only [List.mem_cons] at hr
    rcases hr with hr | hr
    · exact hr
    · exact List.eq_of_mem_replicate hr

/-- C8 witness: two calls against a concrete one-node cluster answer:
exactly one fetch happens and both calls return that same fetched set. -/
theorem getInitObjects_single_fetch_witness :
    (runLoaderCalls (fun _ => [RuntimeObject.node { name := "n1", images := [] }])
        initialLoaderState 2).2.fetchCount = 1 ∧
    [RuntimeObject.node { name := "n1", images := [] }]
      ∈ (runLoaderCalls (fun _ => [RuntimeObject.node { name := "n1", images := [] }])
          initialLoaderState 2).1 ∧
    [RuntimeObject.node { name := "n1", images := [] }]
      = (fun _ : Nat => [RuntimeObject.node { name := "n1", images := [] }]) 0 :=
  ⟨(getInitObjects_single_fetch
      (fun _ => [RuntimeObject.node { name := "n1", images := [] }]) 1).1,
   by decide,
   (getInitObjects_single_fetch
      (fun _ => [RuntimeObject.node { name := "n1", images := [] }]) 1).2
     [RuntimeObject.node { name := "n1", images := [] }] (by decide)⟩

/-- The (kind, namespace, name) identity under which the fake clientset
tracker stores an object. -/
def objIdentity : RuntimeObject → String × String × String
  | RuntimeObject.pod p => ("Pod", p.ns, p.name)
  | RuntimeObject.node n => ("Node", "", n.name)
  | RuntimeObject.typed k nspace n => (k, nspace, n)
  | RuntimeObject.unstr k nspace n => (k, nspace, n)

/-- `fake.Clientset.Tracker().Add`: inserting an object whose identity is
already present fails (`none`); otherwise the object is appended. -/
def trackerAdd (store : List RuntimeObject) (obj : RuntimeObject) :
    Option (List RuntimeObject) :=
  if store.any (fun o => objIdentity o == objIdentity obj) then none
  else some (store ++ [obj])

/-- The error cases of `InitTheWorld` on an explicit object list:
an unstructured object, or an insertion conflict in the tracker. -/
inductive InitError
  | unstructuredType
  | addConflict (kind nspace name : String)
deriving DecidableEq, Repr

/-- `genericSimulator.InitTheWorld` on an explicit (non-empty) object
list: each object must not be unstructured, passes through `preAdd`, and
if retained is added to the tracker; the first error aborts the loop and
is returned, with all earlier insertions left in place.  The result pairs
the returned error (none on success) with the final tracker content. -/
def InitTheWorld (cfg : SimConfig) (store : List RuntimeObject) :
    List RuntimeObject → Option InitError × List RuntimeObject
  | [] => (none, store)
  | obj :: rest =>
    if isUnstructured obj then (some InitError.unstructuredType, store)
    else
      match preAdd cfg obj with
      | some obj' =>
        match trackerAdd store obj' with
        | none =>
          ((objIdentity obj').1, (objIdentity obj').2.1, (objIdentity obj').2.2)
            |> fun id => (some (InitError.addConflict id.1 id.2.1 id.2.2), store)
        | some store' => InitTheWorld cfg store' rest
      | none => InitTheWorld cfg store rest

/-- The error that processing a single object produces, if any: the
unstructured rejection, or a tracker conflict on the sanitized object. -/
def initStepError (cfg : SimConfig) (store : List RuntimeObject)
    (obj : RuntimeObject) : Option InitError :=
  if isUnstructured obj then some InitError.unstructuredType
  else
    match preAdd cfg obj with
    | some obj' =>
      match trackerAdd store obj' with
      | none => some (InitError.addConflict (objIdentity obj').1
          (objIdentity obj').2.1 (objIdentity obj').2.2)
      | some _ => none
    | none => none

/-- Processing an appended list first processes the prefix; if the prefix
succeeds, processing continues on the suffix from the reached store. -/
theorem InitTheWorld_append (cfg : SimConfig) (pre : List RuntimeObject)
    (store0 store1 : List RuntimeObject) (l : List RuntimeObject)
    (h : InitTheWorld cfg store0 pre = (none, store1)) :
    InitTheWorld cfg store0 (pre ++ l) = InitTheWorld cfg store1 l := by
  induction pre generalizing store0 with
  | nil =>
    simp [InitTheWorld] at h
    simp [h]
  | cons obj rest ih =>
    by_cases hu : isUnstructured obj = true
    · simp [InitTheWorld, hu] at h
    · cases hpa : preAdd cfg obj with
      | none =>
        simp only [List.cons_append, InitTheWorld, hu, Bool.false_eq_true,
          if_false, hpa] at h ⊢
        exact ih store0 h
      | some obj' =>
        cases hta : trackerAdd store0 obj' with
        | none =>
          simp [InitTheWorld, hu, hpa, hta] at h
        | some store2 =>
          simp only [List.cons_append, InitTheWorld, hu, Bool.false_eq_true,
            if_false, hpa, hta] at h ⊢
          exact ih store2 h

/-- C9: (a) if any explicit object is unstructured, `InitTheWorld` returns
an error; (b) whenever a prefix of the object list is processed
successfully and the next object fails (unstructured or tracker
conflict), `InitTheWorld` aborts at that first failure, returns exactly
that error, and the store keeps every object inserted for the prefix (no
rollback) while the remaining objects are never processed. -/
theorem InitTheWorld_spec :
    (∀ (cfg : SimConfig) (store objs : List RuntimeObject),
      (∃ o, o ∈ objs ∧ isUnstructured o = true) →
      (InitTheWorld cfg store objs).1.isSome = true) ∧
    (∀ (cfg : SimConfig) (store0 pre : List RuntimeObject)
       (bad : RuntimeObject) (rest store1 : List RuntimeObject) (e : InitError),
      InitTheWorld cfg store0 pre = (none, store1) →
      initStepError cfg store1 bad = some e →
      InitTheWorld cfg store0 (pre ++ bad :: rest) = (some e, store1)) := by
  constructor
  · intro cfg store objs
    induction objs generalizing store with
    | nil => rintro ⟨o, ho, _⟩; simp at ho
    | cons obj rest ih =>
      rintro ⟨o, ho, hu⟩
      by_cases hobj : isUnstructured obj = true
      · simp [InitTheWorld, hobj]
      · have ho' : o ∈ rest := by
          rcases List.mem_cons.mp ho with rfl | h
          · exact absurd hu hobj
          · exact h
        cases hpa : preAdd cfg obj with
        | none =>
          simp only [InitTheWorld, hobj, Bool.false_eq_true, if_false, hpa]
          exact ih store ⟨o, ho', hu⟩
        | some obj' =>
          cases hta : trackerAdd store obj' with
          | none => simp [InitTheWorld, hobj, hpa, hta]
          | some store' =>
            simp only [InitTheWorld, hobj, Bool.false_eq_true, if_false,
              hpa, hta]
            exact ih store' ⟨o, ho', hu⟩
  · intro cfg store0 pre bad rest store1 e hpre hbad
    rw [InitTheWorld_append cfg pre store0 store1 (bad :: rest) hpre]
    by_cases hu : isUnstructured bad = true
    · simp [initStepError, hu] at hbad
      simp [InitTheWorld, hu, ← hbad]
    · cases hpa : preAdd cfg bad with
      | none => simp [initStepError, hu, hpa] at hbad
      | some obj' =>
        cases hta : trackerAdd store1 obj' with
        | none =>
          simp only [initStepError, hu, Bool.false_eq_true, if_false, hpa,
            hta, Option.some.injEq] at hbad
          simp [InitTheWorld, hu, hpa, hta, ← hbad]
        | some store2 => simp [initStepError, hu, hpa, hta] at hbad

/-- C9 witness: a typed pod is inserted, then an unstructured object
aborts the call with the unstructured-type error while the pod stays in
the store and a trailing node is never inserted. -/
theorem InitTheWorld_spec_witness :
    (InitTheWorld
      { excludeNodes := none, withScheduledPods := true,
        withNodeImages := true, ignorePodsOnExcludesNode := false }
      []
      [RuntimeObject.pod
        { ns := "default", name := "p1", nodeName := "",
          phase := PodPhase.pending, deletionTimestamp := none,
          ownerReferences := [] },
       RuntimeObject.unstr "Foo" "default" "u1",
       RuntimeObject.node { name := "n1", images := [] }]).1.isSome = true ∧
    InitTheWorld
      { excludeNodes := none, withScheduledPods := true,
        withNodeImages := true, ignorePodsOnExcludesNode := false }
      []
      ([RuntimeObject.pod
         { ns := "default", name := "p1", nodeName := "",
           phase := PodPhase.pending, deletionTimestamp := none,
           ownerReferences := [] }]
       ++ RuntimeObject.unstr "Foo" "default" "u1"
          :: [RuntimeObject.node { name := "n1", images := [] }])
      = (some InitError.unstructuredType,
         [RuntimeObject.pod
           { ns := "default", name := "p1", nodeName := "",
             phase := PodPhase.pending, deletionTimestamp := none,
             ownerReferences := [] }]) :=
  ⟨InitTheWorld_spec.1 _ _ _
     ⟨RuntimeObject.unstr "Foo" "default" "u1", by decide, rfl⟩,
   InitTheWorld_spec.2 _ _ _ _ _ _ _ (by decide) (by decide)⟩

/-- One entry of a node's pod list in the scheduler cache dump
(`framework.PodInfo`); its `Pod` pointer may be nil. -/
structure PodInfo where
  pod : Option Pod
deriving DecidableEq, Repr

/-- The scheduler cache dump: a nil-able map from node name to that
node's pod infos (`dump.Nodes[nodeName].Pods`); `none` for the whole dump
models a nil `Dump`, `none` for a lookup models an absent node entry. -/
structure CacheDump where
  nodes : List (String × List PodInfo)
deriving DecidableEq, Repr

/-- The pods the dump records for a node: empty when the dump is nil or
the node has no entry, and with nil pod pointers filtered out — exactly
the list the Go loop accumulates in `res`. -/
def dumpPods (dump : Option CacheDump) (nodeName : String) : List Pod :=
  match dump with
  | none => []
  | some d =>
    match d.nodes.lookup nodeName with
    | none => []
    | some infos => infos.filterMap PodInfo.pod

/-- `genericSimulator.GetPodsByNode`: accumulates the non-nil pods
recorded for the node in the scheduler cache dump, then fails whenever
the accumulated slice is still nil — which conflates "dump is nil" and
"node unknown" with "node present but with an empty pod list". -/
def GetPodsByNode (dump : Option CacheDump) (nodeName : String) :
    Except String (List Pod) :=
  let res := dumpPods dump nodeName
  if res = [] then
    Except.error "cannot get pods on the node because dump is nil"
  else Except.ok res

/-- C10 counterexample: a dump in which node "n1" is present with an
empty pod list makes `GetPodsByNode` return an error, contradicting the
claim that the call succeeds whenever the node is present in the dump. -/
theorem GetPodsByNode_error_on_present_empty_node :
    (CacheDump.mk [("n1", [])]).nodes.lookup "n1" = some [] ∧
    GetPodsByNode (some (CacheDump.mk [("n1", [])])) "n1"
      = Except.error "cannot get pods on the node because dump is nil" := by
  constructor
  · rfl
  · rfl

/-- C10 (amended): `GetPodsByNode` returns the pod list recorded for the
node in the cache dump exactly when that list (nil entries filtered) is
non-empty, and fails otherwise — i.e. when the dump is nil, the node is
unknown, OR the node is present with no recorded pods. -/
theorem GetPodsByNode_spec (dump : Option CacheDump) (nodeName : String) :
    GetPodsByNode dump nodeName
      = if dumpPods dump nodeName = [] then
          Except.error "cannot get pods on the node because dump is nil"
        else Except.ok (dumpPods dump nodeName) := by
  rfl
